import Mathlib

/-!
Shallow embedding of the packetforward client (`packetforward.go`).

The source is a Go file with a `forwarder` struct holding:
  id, downstream (sink), idleTimeout, dialServer, upstreamConn, upstream,
  copyToDownstreamError (a channel of capacity 1).

We model:
  * byte slices as `List Nat`, Go `error` values as `Nat` (opaque),
  * `time.Duration` (an int64 nanosecond count) as `Int`, with 64-bit
    wrap-around made explicit where the source can overflow,
  * the channel plus the background copy-loop goroutines by counters on the
    forwarder state (`chanCount` buffered values, `activeLoops` spawned and
    not yet terminated loops, `loopsSpawned` a lifetime generation counter),
  * the retry loop of `writeToUpstream` as a fuel-indexed step function whose
    environment scripts the outcome of each dial attempt and of each
    upstream write, and which records a trace of observable events,
  * `copyToDownstream` as a pure function from the link's read script
    (a list of frame payloads followed by a terminal read error) and the
    sink's scripted per-call results to the loop's event trace.

A channel receive (`<-f.copyToDownstreamError`) completes when a value is
buffered, or when a live copy loop whose connection has been closed will
still publish; it blocks forever otherwise.  Whenever the source reaches a
receive, every live copy loop's connection has already been closed (by
`closeUpstream`), so such a loop is guaranteed to publish eventually; the
model therefore lets a receive consume either a buffered value or a live
loop's pending publish, and reports `blocked` when there is neither.
-/

namespace Packetforward

/-- Byte slices (`[]byte`): opaque byte blobs, one `Nat` per byte. -/
abbrev Bytes := List Nat

/-- Go `error` values, opaque; `none` is Go `nil`. -/
abbrev GoErr := Nat

/-- `sleepTime := 50 * time.Millisecond` (line 76), in nanoseconds. -/
def sleepTimeBase : Int := 50000000

/-- `maxDialDelay = 1 * time.Second` (line 31).  Declared in the source but
not used by the dial path, which reuses `f.idleTimeout` instead. -/
def maxDialDelayNs : Int := 1000000000

/-- Two's-complement wrap of an integer into the int64 range, the result of
Go's (defined) signed-integer overflow on `time.Duration` arithmetic. -/
def wrap64 (x : Int) : Int := (x + 2 ^ 63) % 2 ^ 64 - 2 ^ 63

/-- `time.Duration(math.Pow(2, priorAttempts))` (line 82): `math.Pow 2 n` is
an exact float64 for these exponents, and the float-to-int64 conversion is
exact for `n ≤ 62`; for `n ≥ 63` the conversion overflows and Go leaves the
result implementation-dependent (amd64 yields the minimal int64).  The
theorems below only ever evaluate it at `n ≤ 62`. -/
def powTwoDuration (n : Nat) : Int := if n ≤ 62 then 2 ^ n else -(2 ^ 63)

/-- Lines 82–85: the backoff duration for a given number of prior attempts —
`time.Duration(math.Pow(2, priorAttempts)) * sleepTime`, an int64 product
(wrapping on overflow), capped at `maxSleepTime` (`f.idleTimeout`). -/
def backoffSleep (priorAttempts : Nat) (maxSleepTime : Int) : Int :=
  let s := wrap64 (powTwoDuration priorAttempts * sleepTimeBase)
  if maxSleepTime < s then maxSleepTime else s

/-- `time.Sleep` semantics: a negative or zero duration returns immediately,
so the time actually slept is the duration clamped to zero. -/
def effectiveSleep (d : Int) : Int := max d 0

/-! ## The downstream copy loop (lines 139–157) -/

/-- Observable events of one `copyToDownstream` loop instance. -/
inductive LoopEv where
  | deliver (p : Bytes)
  | closeLink
  | publish (e : GoErr)
  deriving DecidableEq

/-- `copyToDownstream` (lines 139–157), as a function of the link's read
script and the sink's behaviour.  The link yields the frame payloads in
`frames` one per successful `upstream.Read`, then a terminal `readErr`.
The sink's (`f.downstream.Write`) scripted results are consumed one per
call: the head is the current call's result (`none` = success), an
exhausted script means all further calls succeed.  The trace records each
sink call, the `upstream.Close()`, and the single send on
`copyToDownstreamError`. -/
def copyToDownstream (sink : List (Option GoErr)) :
    List Bytes → GoErr → List LoopEv
  | [], readErr => [LoopEv.closeLink, LoopEv.publish readErr]
  | p :: rest, readErr =>
    if 0 < p.length then
      match sink with
      | some w :: _ => [LoopEv.deliver p, LoopEv.closeLink, LoopEv.publish w]
      | none :: sinkRest => LoopEv.deliver p :: copyToDownstream sinkRest rest readErr
      | [] => LoopEv.deliver p :: copyToDownstream [] rest readErr
    else
      copyToDownstream sink rest readErr

/-- The payloads the `if n > 0` guard (line 143) lets through: the nonempty
frames, in order. -/
def nonEmptyFrames (frames : List Bytes) : List Bytes :=
  frames.filter fun p => decide (0 < p.length)

/-- Number of sink deliveries in a copy-loop trace. -/
def deliverCount (tr : List LoopEv) : Nat :=
  (tr.filter fun e => match e with | LoopEv.deliver _ => true | _ => false).length

/-! ## Forwarder state and the write path (lines 38–137) -/

/-- The mutable state of the `forwarder` struct, plus bookkeeping for the
channel and the copy-loop goroutines.  `upstream` is `some gen` when
`f.upstreamConn`/`f.upstream` are set (they are always set and cleared
together), carrying the generation number of the current link.
`connFrames` is the sequence of frames written on the current link's
transport (the handshake makes it `[id]` at creation). -/
structure FwdState where
  upstream : Option Nat
  chanCount : Nat
  activeLoops : Nat
  loopsSpawned : Nat
  connFrames : List Bytes
  deriving DecidableEq

/-- The state `Client` (lines 54–63) constructs: no link, empty capacity-one
channel, no copy loop ever spawned. -/
def initFwd : FwdState := ⟨none, 0, 0, 0, []⟩

/-- Outcome of one `dialUpstream` attempt, as scripted by the environment:
the dial itself fails (line 120), the handshake write of the client id
fails (line 129), or both succeed. -/
inductive DialOutcome where
  | dialFail
  | handshakeFail
  | ok
  deriving DecidableEq

/-- Environment scripting the nondeterminism the write path observes:
the outcome of the k-th dial attempt and of the k-th `f.upstream.Write`. -/
structure Env where
  dial : Nat → DialOutcome
  writeOk : Nat → Bool

/-- Observable events of the write path. -/
inductive Ev where
  | sleep (d : Int)
  | drain
  | dialTry (timeout : Int)
  | dialFailed
  | handshakeFailed
  | spawn (gen : Nat)
  | upWrite (ok : Bool)
  deriving DecidableEq

/-- The local state of one `writeToUpstream` activation: the forwarder plus
the locals `priorAttempts` (line 75, `-1` is the "none yet" sentinel) and
`firstDial` (line 79, true until this call's first successful dial), and
the indices into the environment's scripts. -/
structure IterSt where
  fwd : FwdState
  priorAttempts : Int
  firstDial : Bool
  dialIdx : Nat
  writeIdx : Nat
  deriving DecidableEq

/-- Result of one iteration of the retry loop: `done e` is `return nil`
(line 111, so `e` is always `none`), `blockedRecv` means the iteration
blocked forever on the channel receive, `again` is `continue`. -/
inductive IterRes where
  | done (e : Option GoErr)
  | blockedRecv
  | again
  deriving DecidableEq

/-- The locals of a fresh `writeToUpstream` activation (lines 75–79). -/
def initIter (fwd : FwdState) : IterSt := ⟨fwd, -1, true, 0, 0⟩

/-- The channel receive `<-f.copyToDownstreamError` guarded by `!firstDial`
(lines 91–94): skipped when `firstDial`; otherwise it consumes a buffered
value, or the pending publish of a live (doomed) copy loop, and blocks
forever (`none`) when neither exists. -/
def drainStep (firstDial : Bool) (fwd : FwdState) : Option (FwdState × List Ev) :=
  if firstDial then some (fwd, [])
  else if 0 < fwd.chanCount then
    some ({ fwd with chanCount := fwd.chanCount - 1 }, [Ev.drain])
  else if 0 < fwd.activeLoops then
    some ({ fwd with activeLoops := fwd.activeLoops - 1 }, [Ev.drain])
  else none

/-- Lines 102–111: `priorAttempts = -1`, then `f.upstream.Write(b)`.  On
success the packet goes out as one frame and the function returns `nil`;
on failure `closeUpstream` discards the link (the loop's own connection is
closed, so that loop will eventually fail and publish) and the loop
continues. -/
def writePart (env : Env) (b : Bytes) (fwd : FwdState) (fd : Bool)
    (di wi : Nat) (tr : List Ev) : IterRes × IterSt × List Ev :=
  if env.writeOk wi then
    (IterRes.done none,
     ⟨{ fwd with connFrames := fwd.connFrames ++ [b] }, -1, fd, di, wi + 1⟩,
     tr ++ [Ev.upWrite true])
  else
    (IterRes.again,
     ⟨{ fwd with upstream := none }, -1, fd, di, wi + 1⟩,
     tr ++ [Ev.upWrite false])

/-- Lines 88–111, the body of one loop iteration after the sleep: increment
`priorAttempts`; if no link, drain (unless `firstDial`) and dial
(`dialUpstream`, lines 115–137: on success the handshake frame `id` is the
first frame on the new connection and a fresh copy loop is spawned before
returning); then reset `priorAttempts` and attempt the upstream write. -/
def iterMain (env : Env) (id : Bytes) (idleTimeout : Int) (b : Bytes)
    (s : IterSt) : IterRes × IterSt × List Ev :=
  match s.fwd.upstream with
  | some _ => writePart env b s.fwd s.firstDial s.dialIdx s.writeIdx []
  | none =>
    match drainStep s.firstDial s.fwd with
    | none => (IterRes.blockedRecv, s, [])
    | some (fwd1, drTr) =>
      match env.dial s.dialIdx with
      | DialOutcome.dialFail =>
        (IterRes.again, ⟨fwd1, s.priorAttempts, s.firstDial, s.dialIdx + 1, s.writeIdx⟩,
         drTr ++ [Ev.dialTry idleTimeout, Ev.dialFailed])
      | DialOutcome.handshakeFail =>
        (IterRes.again, ⟨fwd1, s.priorAttempts, s.firstDial, s.dialIdx + 1, s.writeIdx⟩,
         drTr ++ [Ev.dialTry idleTimeout, Ev.handshakeFailed])
      | DialOutcome.ok =>
        let gen := fwd1.loopsSpawned
        let fwd2 : FwdState :=
          { fwd1 with
            upstream := some gen
            loopsSpawned := gen + 1
            activeLoops := fwd1.activeLoops + 1
            connFrames := [id] }
        writePart env b fwd2 false (s.dialIdx + 1) s.writeIdx
          (drTr ++ [Ev.dialTry idleTimeout, Ev.spawn gen])

/-- One full iteration of the retry loop (lines 80–112): the backoff sleep
when a prior attempt exists (lines 81–87), then the body. -/
def iterStep (env : Env) (id : Bytes) (idleTimeout : Int) (b : Bytes)
    (s : IterSt) : IterRes × IterSt × List Ev :=
  let sleepTr : List Ev :=
    if s.priorAttempts > -1 then
      [Ev.sleep (backoffSleep s.priorAttempts.toNat idleTimeout)]
    else []
  let r := iterMain env id idleTimeout b
    ⟨s.fwd, s.priorAttempts + 1, s.firstDial, s.dialIdx, s.writeIdx⟩
  (r.1, r.2.1, sleepTr ++ r.2.2)

/-- Outcome of running the retry loop with a given amount of fuel:
`returned e` is `writeToUpstream` returning `e`, `blockedRecv` a forever-
blocked channel receive, `fuelOut` that the loop was still running. -/
inductive WriteOut where
  | returned (e : Option GoErr)
  | blockedRecv
  | fuelOut
  deriving DecidableEq

/-- The retry loop of `writeToUpstream` (lines 80–112), fuel-indexed: runs
`iterStep` until it returns or blocks, accumulating the trace. -/
def writeLoop (env : Env) (id : Bytes) (idleTimeout : Int) (b : Bytes) :
    Nat → IterSt → WriteOut × IterSt × List Ev
  | 0, s => (WriteOut.fuelOut, s, [])
  | fuel + 1, s =>
    match iterStep env id idleTimeout b s with
    | (IterRes.done e, s1, tr) => (WriteOut.returned e, s1, tr)
    | (IterRes.blockedRecv, s1, tr) => (WriteOut.blockedRecv, s1, tr)
    | (IterRes.again, s1, tr) =>
      let r := writeLoop env id idleTimeout b fuel s1
      (r.1, r.2.1, tr ++ r.2.2)

/-- Lines 66–70: `Write` maps `writeToUpstream`'s error to its own result —
`(0, err)` on a non-nil error, `(len(b), nil)` otherwise. -/
def goWriteResult (e : Option GoErr) (b : Bytes) : Nat × Option GoErr :=
  match e with
  | some err => (0, some err)
  | none => (b.length, none)

/-- `Write` (lines 65–71): runs `writeToUpstream` from a fresh activation;
`none` when the loop did not return (still retrying, or blocked). -/
def goWrite (env : Env) (id : Bytes) (idleTimeout : Int) (fwd : FwdState)
    (b : Bytes) (fuel : Nat) :
    Option ((Nat × Option GoErr) × IterSt × List Ev) :=
  match writeLoop env id idleTimeout b fuel (initIter fwd) with
  | (WriteOut.returned e, s1, tr) => some (goWriteResult e b, s1, tr)
  | _ => none

/-- Result of `Close`: returned, or blocked forever on the channel receive. -/
inductive CloseOut where
  | returned
  | blockedRecv
  deriving DecidableEq

/-- `Close` (lines 167–171): `closeUpstream` (discard the link, if any),
then receive one value from `copyToDownstreamError`. -/
def goClose (fwd : FwdState) : CloseOut × FwdState :=
  let fwd1 : FwdState := { fwd with upstream := none }
  if 0 < fwd1.chanCount then
    (CloseOut.returned, { fwd1 with chanCount := fwd1.chanCount - 1 })
  else if 0 < fwd1.activeLoops then
    (CloseOut.returned, { fwd1 with activeLoops := fwd1.activeLoops - 1 })
  else (CloseOut.blockedRecv, fwd1)

/-! ## Concrete environments used in the scenarios -/

/-- Every dial and handshake succeeds, every upstream write succeeds. -/
def envAllOk : Env := ⟨fun _ => DialOutcome.ok, fun _ => true⟩

/-- Every dial attempt fails at the dial call. -/
def envAllDialFail : Env := ⟨fun _ => DialOutcome.dialFail, fun _ => true⟩

/-- Dials succeed, but the first upstream write fails (the link died after
the previous successful write) and subsequent ones succeed. -/
def envFirstWriteFails : Env := ⟨fun _ => DialOutcome.ok, fun k => k != 0⟩

/-- The forwarder state after a first successful `Write` on a fresh client:
link of generation 0 live, its copy loop running, channel empty. -/
def afterFirstWrite : FwdState :=
  (writeLoop envAllOk [9] 1000000000 [1] 1 (initIter initFwd)).2.1.fwd

/-- The forwarder state after `Close` is called on `afterFirstWrite`. -/
def afterClose : FwdState := (goClose afterFirstWrite).2

/-- The loop state reached after 39 consecutive dial failures inside one
`Write` on a fresh client: `priorAttempts = 38`, still before this call's
first successful dial. -/
def st38 : IterSt := ⟨initFwd, 38, true, 39, 0⟩

/-! ## Theorems -/

/-- An integer already in the int64 range is unchanged by the wrap. -/
theorem wrap64_eq_of_bounds (x : Int) (h1 : -(2 ^ 63) ≤ x) (h2 : x < 2 ^ 63) :
    wrap64 x = x := by
  unfold wrap64
  have h3 : (0 : Int) ≤ x + 2 ^ 63 := by omega
  have h4 : x + 2 ^ 63 < 2 ^ 64 := by
    have he : (2 : Int) ^ 64 = 2 ^ 63 + 2 ^ 63 := by norm_num
    omega
  rw [Int.emod_eq_of_lt h3 h4]
  omega

/-- The channel receive neither touches the link fields or the spawn
counter, nor records any dial or spawn event. -/
theorem drainStep_preserves (fd : Bool) (fwd fwd1 : FwdState) (tr : List Ev)
    (h : drainStep fd fwd = some (fwd1, tr)) :
    fwd1.upstream = fwd.upstream ∧ fwd1.loopsSpawned = fwd.loopsSpawned ∧
    (tr = [] ∨ tr = [Ev.drain]) := by
  unfold drainStep at h
  split_ifs at h <;> simp at h <;> simp [← h.1, ← h.2]

/-- No branch of the loop body after the sleep records a sleep event. -/
theorem iterMain_no_sleep (env : Env) (id : Bytes) (it : Int) (b : Bytes)
    (s : IterSt) (d : Int) : Ev.sleep d ∉ (iterMain env id it b s).2.2 := by
  unfold iterMain
  rcases hu : s.fwd.upstream with _ | g
  · rcases hd : drainStep s.firstDial s.fwd with _ | ⟨fwd1, drTr⟩
    · simp
    · obtain ⟨-, -, htr⟩ := drainStep_preserves _ _ _ _ hd
      rcases henv : env.dial s.dialIdx with _ | _ | _
      · rcases htr with htr | htr <;> simp [htr]
      · rcases htr with htr | htr <;> simp [htr]
      · simp only [writePart]
        split_ifs <;> rcases htr with htr | htr <;> simp [htr]
  · simp only [writePart]
    split_ifs <;> simp

/-- The only `return` in the retry loop body is `return nil` (line 111). -/
theorem iterStep_fst_done (env : Env) (id : Bytes) (it : Int) (b : Bytes)
    (s : IterSt) (e : Option GoErr)
    (h : (iterStep env id it b s).1 = IterRes.done e) : e = none := by
  unfold iterStep iterMain at h
  rcases hu : s.fwd.upstream with _ | g <;> rw [hu] at h
  · rcases hd : drainStep s.firstDial
        (⟨s.fwd, s.priorAttempts + 1, s.firstDial, s.dialIdx, s.writeIdx⟩ : IterSt).fwd
      with _ | ⟨fwd1, drTr⟩ <;> rw [hd] at h
    · simp at h
    · rcases henv : env.dial s.dialIdx with _ | _ | _ <;> rw [henv] at h
      · simp at h
      · simp at h
      · simp only [writePart] at h
        split_ifs at h <;> simp at h
        exact h.symm
  · simp only [writePart] at h
    split_ifs at h <;> simp at h
    exact h.symm

/-- Whenever the retry loop returns, the value returned is `nil`. -/
theorem writeLoop_fst_returned (env : Env) (id : Bytes) (it : Int) (b : Bytes) :
    ∀ (fuel : Nat) (s : IterSt) (e : Option GoErr),
      (writeLoop env id it b fuel s).1 = WriteOut.returned e → e = none := by
  intro fuel
  induction fuel with
  | zero => intro s e h; simp [writeLoop] at h
  | succ fuel ih =>
    intro s e h
    unfold writeLoop at h
    rcases hi : iterStep env id it b s with ⟨res, s1, tr1⟩
    rw [hi] at h
    cases res with
    | done e1 =>
      simp at h
      exact h ▸ iterStep_fst_done env id it b s e1 (by rw [hi])
    | blockedRecv => simp at h
    | again => exact ih s1 e h

/-- With a sink that never fails, the loop delivers exactly the nonempty
payloads, in order, then closes the link and publishes the read error. -/
theorem copy_no_sink_failure (frames : List Bytes) (e : GoErr) :
    copyToDownstream [] frames e =
      (nonEmptyFrames frames).map LoopEv.deliver ++
        [LoopEv.closeLink, LoopEv.publish e] := by
  induction frames with
  | nil => rfl
  | cons p rest ih =>
    by_cases hp : 0 < p.length
    · simp [copyToDownstream, nonEmptyFrames, List.filter_cons, hp, ih]
    · simp [copyToDownstream, nonEmptyFrames, List.filter_cons, hp] at ih ⊢
      exact ih

/-- Every loop instance, whatever the sink does, produces some deliveries
followed by exactly one close of the link and exactly one publish. -/
theorem copy_single_publish (frames : List Bytes) :
    ∀ (sink : List (Option GoErr)) (e : GoErr),
      ∃ (ds : List Bytes) (v : GoErr), copyToDownstream sink frames e =
        ds.map LoopEv.deliver ++ [LoopEv.closeLink, LoopEv.publish v] := by
  induction frames with
  | nil => exact fun sink e => ⟨[], e, rfl⟩
  | cons p rest ih =>
    intro sink e
    by_cases hp : 0 < p.length
    · match sink with
      | some w :: s =>
        exact ⟨[p], w, by simp [copyToDownstream, hp]⟩
      | none :: s =>
        obtain ⟨ds, v, hv⟩ := ih s e
        exact ⟨p :: ds, v, by simp [copyToDownstream, hp, hv]⟩
      | [] =>
        obtain ⟨ds, v, hv⟩ := ih [] e
        exact ⟨p :: ds, v, by simp [copyToDownstream, hp, hv]⟩
    · obtain ⟨ds, v, hv⟩ := ih sink e
      exact ⟨ds, v, by simp [copyToDownstream, hp, hv]⟩

/-- When the sink's first failure (error `w`) hits on its (k+1)-th call, the
loop delivers the first k+1 nonempty payloads (the last delivery being the
failing call), closes the link, and publishes `w`. -/
theorem copy_sink_failure (frames : List Bytes) :
    ∀ (k : Nat) (e w : GoErr) (s : List (Option GoErr)),
      k < (nonEmptyFrames frames).length →
      copyToDownstream (List.replicate k none ++ some w :: s) frames e =
        ((nonEmptyFrames frames).take (k + 1)).map LoopEv.deliver ++
          [LoopEv.closeLink, LoopEv.publish w] := by
  induction frames with
  | nil => intro k e w s hk; simp [nonEmptyFrames] at hk
  | cons p rest ih =>
    intro k e w s hk
    by_cases hp : 0 < p.length
    · cases k with
      | zero =>
        simp [copyToDownstream, hp, nonEmptyFrames, List.filter_cons]
      | succ k =>
        have hk1 : k < (nonEmptyFrames rest).length := by
          simp [nonEmptyFrames, List.filter_cons, hp] at hk ⊢
          omega
        simp [copyToDownstream, hp, nonEmptyFrames, List.filter_cons,
          List.replicate_succ, ih k e w s hk1]
    · have hk1 : k < (nonEmptyFrames rest).length := by
        simpa [nonEmptyFrames, List.filter_cons, hp] using hk
      simp [copyToDownstream, hp, nonEmptyFrames, List.filter_cons,
        ih k e w s hk1]

/-- C1: the claim says the write path drains the Completion Signal before
every redial except the very first dial of the client's lifetime, so that
at most one copy loop is active at any instant.  The code resets
`firstDial` at every `writeToUpstream` call (it is a local, line 79), so
the drain is skipped on the first dial of every call: after a first
successful `Write` (loop generation 0 spawned, `loopsSpawned = 1`), a
second `Write` whose upstream write fails redials with no `drain` event at
all, spawns generation 1, and leaves two copy loops active at once. -/
theorem c1_redial_skips_drain_two_loops_active :
    (writeLoop envFirstWriteFails [9] 1000000000 [2] 2 (initIter afterFirstWrite)).1 =
      WriteOut.returned none ∧
    (writeLoop envFirstWriteFails [9] 1000000000 [2] 2
        (initIter afterFirstWrite)).2.1.fwd.activeLoops = 2 ∧
    afterFirstWrite.activeLoops = 1 ∧
    afterFirstWrite.loopsSpawned = 1 ∧
    Ev.drain ∉ (writeLoop envFirstWriteFails [9] 1000000000 [2] 2
        (initIter afterFirstWrite)).2.2 ∧
    Ev.spawn 1 ∈ (writeLoop envFirstWriteFails [9] 1000000000 [2] 2
        (initIter afterFirstWrite)).2.2 := by
  decide

/-- C3: the claim says `Close` returns in every state, including on a client
that never dialed.  On the fresh state `Client` constructs, the channel is
empty and no copy loop exists to ever publish, so the receive on line 169
blocks forever. -/
theorem c3_close_on_fresh_client_blocks :
    (goClose initFwd).1 = CloseOut.blockedRecv := by
  decide

/-- C2, counterexample: the claim says every `Write` after `Close` returns a
`Closed` error.  The code keeps no closed flag: after `Close` returns on a
once-connected client, a subsequent `Write` redials and returns
`(len(b), nil)` — no error at all. -/
theorem c2_counterexample :
    (goClose afterFirstWrite).1 = CloseOut.returned ∧
    (goWrite envAllOk [9] 1000000000 afterClose [3, 4] 1).map (fun r => r.1) =
      some (2, none) := by
  decide

/-- C6, counterexample: the claim says a link yielding payloads p1..pk
followed by a read error makes the sink's deliver be called exactly k
times with those payloads.  A zero-length frame fails the `n > 0` guard
(line 143): with payloads `[1]`, `[]`, `[2]` (k = 3) and read error 7, the
sink is called only twice. -/
theorem c6_counterexample :
    copyToDownstream [] [[1], [], [2]] 7 =
      [LoopEv.deliver [1], LoopEv.deliver [2], LoopEv.closeLink, LoopEv.publish 7] ∧
    deliverCount (copyToDownstream [] [[1], [], [2]] 7) = 2 ∧
    LoopEv.deliver [] ∉ copyToDownstream [] [[1], [], [2]] 7 := by
  decide

/-- C4, counterexample: the claim says the sleep before retry attempt n is
`min(50ms * 2^n, idleTimeout)` for every n.  With idleTimeout = 1s, after
39 consecutive dial failures (a reachable state, first conjunct) the next
iteration computes `time.Duration(2^38) * 50ms`, whose int64 product wraps
to a negative duration, so `time.Sleep` returns at once: the sleep is 0,
not the 1s the formula demands. -/
theorem c4_counterexample :
    (writeLoop envAllDialFail [9] 1000000000 [1] 39 (initIter initFwd)).2.1 = st38 ∧
    (iterStep envAllDialFail [9] 1000000000 [1] st38).2.2 =
      [Ev.sleep (-4702848726509551616), Ev.dialTry 1000000000, Ev.dialFailed] ∧
    effectiveSleep (-4702848726509551616) = 0 ∧
    min ((50000000 : Int) * 2 ^ 38) 1000000000 = 1000000000 := by
  decide

/-- C5: on every new physical connection the first frame written to the
transport is the raw client identity, and each subsequent frame is one
packet payload: after a successful dial and handshake, `Write b` leaves
the connection's frame sequence `[id, b]`, in that order, for every
identity `id` and packet `b`. -/
theorem c5_identity_frame_first (id b : Bytes) (it : Int) :
    (goWrite envAllOk id it initFwd b 1).map (fun r => (r.1, r.2.1.fwd.connFrames)) =
      some ((b.length, none), [id, b]) := by
  rfl

/-- C2, amended: after `Close` returns, a subsequent `Write` does not fail
with a `Closed` error — the client keeps no closed flag, so the write path
redials like on any other call, and whenever it returns at all it returns
`(len(b), nil)`. -/
theorem c2_amended (env : Env) (id : Bytes) (it : Int) (b : Bytes) (fuel : Nat) :
    goWrite env id it afterClose b fuel = none ∨
    ∃ (s : IterSt) (tr : List Ev),
      goWrite env id it afterClose b fuel = some ((b.length, none), s, tr) := by
  unfold goWrite
  rcases hw : writeLoop env id it b fuel (initIter afterClose) with ⟨out, s1, tr1⟩
  cases out with
  | returned e =>
    right
    have he : e = none := writeLoop_fst_returned env id it b fuel _ e (by rw [hw])
    exact ⟨s1, tr1, by simp [he, goWriteResult]⟩
  | blockedRecv => left; rfl
  | fuelOut => left; rfl

/-- C4, amended: for every retry attempt n with n ≤ 37 — i.e. as long as
the int64 product `time.Duration(2^n) * 50ms` does not overflow — the
backoff before retry attempt n equals `min(50ms * 2^n, idleTimeout)`, and
an iteration entered with `priorAttempts = n` begins with exactly that
sleep. -/
theorem c4_amended (n : Nat) (cap : Int) (h : n ≤ 37) :
    backoffSleep n cap = min (50000000 * 2 ^ n) cap ∧
    ∀ (env : Env) (id b : Bytes) (s : IterSt), s.priorAttempts = (n : Int) →
      ((iterStep env id cap b s).2.2).head? =
        some (Ev.sleep (min (50000000 * 2 ^ n) cap)) := by
  have hp : powTwoDuration n = 2 ^ n := by
    unfold powTwoDuration
    rw [if_pos (by omega : n ≤ 62)]
  have hmono : (2 : Int) ^ n ≤ 2 ^ 37 := pow_le_pow_right₀ (by norm_num) h
  have hnn : (0 : Int) ≤ 2 ^ n := by positivity
  have hbs : backoffSleep n cap =
      if cap < (2 : Int) ^ n * 50000000 then cap else (2 : Int) ^ n * 50000000 := by
    unfold backoffSleep sleepTimeBase
    rw [hp, wrap64_eq_of_bounds ((2 : Int) ^ n * 50000000)
      (by nlinarith) (by nlinarith)]
  have key : backoffSleep n cap = min (50000000 * 2 ^ n) cap := by
    rw [hbs, Int.min_def]
    split_ifs <;> omega
  refine ⟨key, ?_⟩
  intro env id b s hs
  have h1 : (-1 : Int) < (n : Int) := by
    have := Int.natCast_nonneg n
    omega
  simp only [iterStep, hs, gt_iff_lt, if_pos h1, Int.toNat_natCast, key,
    List.cons_append, List.head?_cons]

/-- C4, witness for the amended theorem at n = 3, idleTimeout = 1s. -/
theorem c4_amended_witness :
    backoffSleep 3 1000000000 = min (50000000 * 2 ^ 3) 1000000000 :=
  (c4_amended 3 1000000000 (by decide)).1

/-- C6, amended: a copy-loop instance calls the sink's deliver exactly once
per nonempty payload (zero-length frames fail the `n > 0` guard and are
skipped), in order; it then closes the link and publishes the terminal
read error; if instead a sink write fails with `w`, the link is closed and
the single published value is `w`; every instance publishes exactly once,
after closing the link, and never retries. -/
theorem c6_amended :
    (∀ (frames : List Bytes) (e : GoErr),
        copyToDownstream [] frames e =
          (nonEmptyFrames frames).map LoopEv.deliver ++
            [LoopEv.closeLink, LoopEv.publish e]) ∧
    (∀ (sink : List (Option GoErr)) (frames : List Bytes) (e : GoErr),
        ∃ (ds : List Bytes) (v : GoErr),
          copyToDownstream sink frames e =
            ds.map LoopEv.deliver ++ [LoopEv.closeLink, LoopEv.publish v]) ∧
    (∀ (frames : List Bytes) (e w : GoErr) (k : Nat) (s : List (Option GoErr)),
        k < (nonEmptyFrames frames).length →
        copyToDownstream (List.replicate k none ++ some w :: s) frames e =
          ((nonEmptyFrames frames).take (k + 1)).map LoopEv.deliver ++
            [LoopEv.closeLink, LoopEv.publish w]) :=
  ⟨copy_no_sink_failure,
   fun sink frames e => copy_single_publish frames sink e,
   fun frames e w k s hk => copy_sink_failure frames k e w s hk⟩

/-- C6, witness for the amended theorem: sink fails on its second call. -/
theorem c6_amended_witness :
    copyToDownstream (List.replicate 1 none ++ some 5 :: []) [[1], [2]] 7 =
      ((nonEmptyFrames [[1], [2]]).take (1 + 1)).map LoopEv.deliver ++
        [LoopEv.closeLink, LoopEv.publish 5] :=
  c6_amended.2.2 [[1], [2]] 7 5 1 [] (by decide)

/-- C7: a dial attempt that fails at the dial call or at the handshake write
never makes `Write` return and never terminates the client: the iteration
does not return, the link fields stay absent, no copy loop is spawned, and
the attempt counter is one higher; moreover under dials that always fail
the retry loop runs forever (it neither returns nor blocks, for any amount
of fuel). -/
theorem c7_dial_failure_is_retryable :
    (∀ (env : Env) (id : Bytes) (it : Int) (b : Bytes) (s : IterSt),
        s.fwd.upstream = none →
        (env.dial s.dialIdx = DialOutcome.dialFail ∨
         env.dial s.dialIdx = DialOutcome.handshakeFail) →
        ((iterStep env id it b s).1 = IterRes.again ∨
         (iterStep env id it b s).1 = IterRes.blockedRecv) ∧
        (iterStep env id it b s).2.1.fwd.upstream = none ∧
        (iterStep env id it b s).2.1.fwd.loopsSpawned = s.fwd.loopsSpawned ∧
        (iterStep env id it b s).2.1.priorAttempts = s.priorAttempts + 1 ∧
        (∀ g, Ev.spawn g ∉ (iterStep env id it b s).2.2)) ∧
    (∀ (id : Bytes) (it : Int) (b : Bytes) (s : IterSt) (fuel : Nat),
        s.fwd.upstream = none → s.firstDial = true →
        (writeLoop envAllDialFail id it b fuel s).1 = WriteOut.fuelOut) := by
  constructor
  · intro env id b it s hu hdial
    unfold iterStep iterMain
    rw [hu]
    rcases hd : drainStep s.firstDial s.fwd with _ | ⟨fwd1, drTr⟩
    · refine ⟨Or.inr rfl, hu, rfl, rfl, ?_⟩
      intro g
      split_ifs <;> simp
    · obtain ⟨hup1, hls1, htr⟩ := drainStep_preserves _ _ _ _ hd
      rcases hdial with hdial | hdial <;> rw [hdial]
      · refine ⟨Or.inl rfl, by rw [hup1, hu], hls1, rfl, ?_⟩
        intro g
        split_ifs <;> rcases htr with htr | htr <;> simp [htr]
      · refine ⟨Or.inl rfl, by rw [hup1, hu], hls1, rfl, ?_⟩
        intro g
        split_ifs <;> rcases htr with htr | htr <;> simp [htr]
  · intro id it b s fuel
    induction fuel generalizing s with
    | zero => intro h1 h2; rfl
    | succ fuel ih =>
      intro h1 h2
      have hi : iterStep envAllDialFail id it b s =
          (IterRes.again,
           ⟨s.fwd, s.priorAttempts + 1, s.firstDial, s.dialIdx + 1, s.writeIdx⟩,
           (if s.priorAttempts > -1
            then [Ev.sleep (backoffSleep s.priorAttempts.toNat it)] else []) ++
             [Ev.dialTry it, Ev.dialFailed]) := by
        unfold iterStep iterMain drainStep envAllDialFail
        rw [h1, h2]
        simp
      unfold writeLoop
      rw [hi]
      exact ih _ h1 h2

/-- C7, witness: a failing first dial on a fresh client, and three fuel
steps of the always-failing environment. -/
theorem c7_witness :
    (((iterStep envAllDialFail [9] 7 [1] (initIter initFwd)).1 = IterRes.again ∨
      (iterStep envAllDialFail [9] 7 [1] (initIter initFwd)).1 = IterRes.blockedRecv) ∧
     (iterStep envAllDialFail [9] 7 [1] (initIter initFwd)).2.1.fwd.upstream = none ∧
     (iterStep envAllDialFail [9] 7 [1] (initIter initFwd)).2.1.fwd.loopsSpawned =
       (initIter initFwd).fwd.loopsSpawned ∧
     (iterStep envAllDialFail [9] 7 [1] (initIter initFwd)).2.1.priorAttempts =
       (initIter initFwd).priorAttempts + 1 ∧
     (∀ g, Ev.spawn g ∉ (iterStep envAllDialFail [9] 7 [1] (initIter initFwd)).2.2)) ∧
    (writeLoop envAllDialFail [9] 7 [1] 3 (initIter initFwd)).1 = WriteOut.fuelOut :=
  ⟨c7_dial_failure_is_retryable.1 envAllDialFail [9] 7 [1] (initIter initFwd)
      (by decide) (Or.inl (by decide)),
   c7_dial_failure_is_retryable.2 [9] 7 [1] (initIter initFwd) 3 (by decide) (by decide)⟩

/-- C8: the deadline passed to the caller-supplied dial capability is the
configured idle-timeout duration (`context.WithTimeout(..., f.idleTimeout)`,
line 117), for every dial attempt of every iteration — not the separate
(unused) `maxDialDelay` constant or any other value. -/
theorem c8_dial_timeout_is_idle_timeout (env : Env) (id : Bytes) (it : Int)
    (b : Bytes) (s : IterSt) (t : Int)
    (hmem : Ev.dialTry t ∈ (iterStep env id it b s).2.2) : t = it := by
  unfold iterStep at hmem
  rw [List.mem_append] at hmem
  rcases hmem with hmem | hmem
  · split_ifs at hmem <;> simp at hmem
  · unfold iterMain at hmem
    rcases hu : s.fwd.upstream with _ | g <;> rw [hu] at hmem
    · rcases hd : drainStep s.firstDial s.fwd with _ | ⟨fwd1, drTr⟩ <;>
        rw [hd] at hmem
      · simp at hmem
      · obtain ⟨-, -, htr⟩ := drainStep_preserves _ _ _ _ hd
        rcases henv : env.dial s.dialIdx with _ | _ | _ <;> rw [henv] at hmem
        · rcases htr with htr | htr <;> simp [htr] at hmem <;> exact hmem
        · rcases htr with htr | htr <;> simp [htr] at hmem <;> exact hmem
        · simp only [writePart] at hmem
          split_ifs at hmem <;> rcases htr with htr | htr <;>
            simp [htr] at hmem <;> exact hmem
    · simp only [writePart] at hmem
      split_ifs at hmem <;> simp at hmem


/-- C8, witness: on a fresh client with idle timeout 7 the dial attempt's
deadline equals 7. -/
theorem c8_witness : (7 : Int) = 7 :=
  c8_dial_timeout_is_idle_timeout envAllDialFail [9] 7 [1] (initIter initFwd) 7
    (by decide)

/-- C9: whenever `Write(b)` returns at all, it returns `(len(b), nil)`: the
retry loop's only exit is the `return nil` after a successful upstream
write, so no non-nil error ever reaches the caller. -/
theorem c9_write_returns_len_nil (env : Env) (id : Bytes) (it : Int)
    (fwd : FwdState) (b : Bytes) (fuel : Nat) (r : Nat × Option GoErr)
    (s : IterSt) (tr : List Ev)
    (h : goWrite env id it fwd b fuel = some (r, s, tr)) : r = (b.length, none) := by
  unfold goWrite at h
  rcases hw : writeLoop env id it b fuel (initIter fwd) with ⟨out, s1, tr1⟩
  rw [hw] at h
  cases out with
  | returned e =>
    have he : e = none := writeLoop_fst_returned env id it b fuel _ e (by rw [hw])
    simp [he, goWriteResult] at h
    exact h.1.symm
  | blockedRecv => simp at h
  | fuelOut => simp at h

/-- C9, witness: a successful `Write` of a 2-byte packet returns `(2, nil)`. -/
theorem c9_witness : ((2 : Nat), (none : Option GoErr)) = (([3, 4] : Bytes).length, none) :=
  c9_write_returns_len_nil envAllOk [9] 5 initFwd [3, 4] 1 (2, none)
    ⟨⟨some 0, 0, 1, 1, [[9], [3, 4]]⟩, -1, false, 1, 1⟩
    [Ev.dialTry 5, Ev.spawn 0, Ev.upWrite true] (by decide)

/-- C10: every iteration that reaches the upstream write on a live link
resets the attempt counter to the -1 sentinel (line 102 runs before the
write, not only after a successful dial); if that write fails, the link is
torn down and the next iteration — entered with the sentinel — performs no
backoff sleep, so the post-write-failure redial is immediate. -/
theorem c10_counter_reset_before_live_write :
    (∀ (env : Env) (id : Bytes) (it : Int) (b : Bytes) (s : IterSt) (g : Nat),
        s.fwd.upstream = some g →
        (iterStep env id it b s).2.1.priorAttempts = -1 ∧
        (env.writeOk s.writeIdx = false →
          (iterStep env id it b s).1 = IterRes.again ∧
          (iterStep env id it b s).2.1.fwd.upstream = none)) ∧
    (∀ (env : Env) (id : Bytes) (it : Int) (b : Bytes) (s : IterSt),
        s.priorAttempts = -1 →
        ∀ d, Ev.sleep d ∉ (iterStep env id it b s).2.2) := by
  constructor
  · intro env id it b s g hu
    unfold iterStep iterMain
    rw [hu]
    simp only [writePart]
    split_ifs with hw
    · exact ⟨rfl, fun hfalse => by rw [hw] at hfalse; cases hfalse⟩
    · exact ⟨rfl, fun _ => ⟨rfl, rfl⟩⟩
  · intro env id it b s hs d
    unfold iterStep
    rw [List.mem_append, not_or]
    refine ⟨?_, iterMain_no_sleep env id it b _ d⟩
    rw [hs]
    simp

/-- C10, witness: a failing write on a live link resets the counter and
tears down the link, and an iteration entered with the sentinel does not
sleep. -/
theorem c10_witness :
    ((iterStep envFirstWriteFails [9] 7 [1]
        (⟨⟨some 0, 0, 1, 1, []⟩, 5, true, 0, 0⟩ : IterSt)).2.1.priorAttempts = -1 ∧
     (envFirstWriteFails.writeOk
          (⟨⟨some 0, 0, 1, 1, []⟩, 5, true, 0, 0⟩ : IterSt).writeIdx = false →
        (iterStep envFirstWriteFails [9] 7 [1]
          (⟨⟨some 0, 0, 1, 1, []⟩, 5, true, 0, 0⟩ : IterSt)).1 = IterRes.again ∧
        (iterStep envFirstWriteFails [9] 7 [1]
          (⟨⟨some 0, 0, 1, 1, []⟩, 5, true, 0, 0⟩ : IterSt)).2.1.fwd.upstream = none)) ∧
    Ev.sleep 3 ∉ (iterStep envAllOk [9] 7 [1] (initIter initFwd)).2.2 :=
  ⟨c10_counter_reset_before_live_write.1 envFirstWriteFails [9] 7 [1]
      (⟨⟨some 0, 0, 1, 1, []⟩, 5, true, 0, 0⟩ : IterSt) 0 (by decide),
   c10_counter_reset_before_live_write.2 envAllOk [9] 7 [1] (initIter initFwd)
      (by decide) 3⟩

end Packetforward
